import Mathlib

/-!
Shallow embedding of the minharenda-api reporting/aggregation engine
(the GET /relatorio/:usuarioId handler and its helpers) for formal
verification of the repository specification.

Modelling choices:
- Decimal amounts and quantities are rationals.
- A JavaScript Map is an insertion-ordered association list: `mapSet`
  updates a present key in place and appends a fresh key at the end,
  matching Map.set; iteration order is the list order, matching the
  insertion-order iteration of Map.
- JavaScript Array.sort with comparator (a, b) => key b - key a is a
  stable descending sort (stability is guaranteed by the language
  specification); it is modelled by `sortDescBy`, a stable descending
  insertion sort.
- Database fetches are modelled as pure queries over a `DB` snapshot;
  the Prisma groupBy aggregation (group line items by product, sum the
  base quantities, order by the sum descending, take 3) is modelled with
  the same stable descending sort.
-/

namespace MinhaRenda

/-- Lookup in an insertion-ordered association list (JS Map.get). -/
def mapGet {κ β : Type} [DecidableEq κ] : List (κ × β) → κ → Option β
  | [], _ => none
  | (k2, v) :: rest, k => if k2 = k then some v else mapGet rest k

/-- Update/insert in an insertion-ordered association list (JS Map.set):
an existing key keeps its position, a new key is appended at the end. -/
def mapSet {κ β : Type} [DecidableEq κ] : List (κ × β) → κ → β → List (κ × β)
  | [], k, v => [(k, v)]
  | (k2, v2) :: rest, k, v =>
      if k2 = k then (k2, v) :: rest else (k2, v2) :: mapSet rest k v

/-- One step of stable descending insertion sort: `x` is placed before the
first element whose key is not greater than `key x`, so elements that
compare equal keep their original relative order. -/
def insertDesc {α : Type} (key : α → ℚ) (x : α) : List α → List α
  | [] => [x]
  | y :: ys => if key x < key y then y :: insertDesc key x ys else x :: y :: ys

/-- Stable descending sort by a rational-valued key: the semantics of
JS Array.sort with comparator (a, b) => key b - key a. -/
def sortDescBy {α : Type} (key : α → ℚ) : List α → List α
  | [] => []
  | x :: xs => insertDesc key x (sortDescBy key xs)

/-- sort descending by key, then slice(0, n): the ranking idiom used by
every report section. -/
def topNBy {α : Type} (n : ℕ) (key : α → ℚ) (l : List α) : List α :=
  (sortDescBy key l).take n

/-! ## Data model (records as fetched by the report handler) -/

/-- A revenue entry (receita), with the fields the report selects. -/
structure Receita where
  id : ℕ
  valor : ℚ
  categoria : Option String
  anexo : Option String
  clienteId : Option ℕ
  usuarioId : String
deriving DecidableEq

/-- An expense entry (despesa), with the fields the report selects. -/
structure Despesa where
  valor : ℚ
  categoria : Option String
  anexo : Option String
  usuarioId : String
deriving DecidableEq

/-- A client record. -/
structure Cliente where
  id : ℕ
  nome : String
  usuarioId : String
deriving DecidableEq

/-- A product record. -/
structure Produto where
  id : ℕ
  nome : String
  unidadeBase : String
  saldoBase : ℚ
  categoria : Option String
  ativo : Bool
  usuarioId : String
deriving DecidableEq

/-- A line item (receitaItem) linking a revenue entry and a product. -/
structure ReceitaItem where
  receitaId : ℕ
  produtoId : ℕ
  qtdBase : ℚ
  subtotal : ℚ
deriving DecidableEq

/-- The database snapshot the report handler queries. -/
structure DB where
  receitas : List Receita
  despesas : List Despesa
  clientes : List Cliente
  produtos : List Produto
  receitaItens : List ReceitaItem
deriving DecidableEq

/-! ## Unit normalizer (formatarProdutoParaExibicao) -/

/-- The derived display view produced by the unit normalizer. -/
structure ProdutoView where
  saldoDisplay : ℚ
  unidadeDisplay : String
deriving DecidableEq

/-- The unit normalizer: grams become kilograms (divide by 1000, label
"kg"), milliliters become liters (divide by 1000, label "L"), and every
other unit tag — including an absent one — passes the quantity through
with label "un". An absent base quantity defaults to 0. -/
def formatarProdutoParaExibicao (saldoBase : Option ℚ) (unidadeBase : Option String) :
    ProdutoView :=
  let saldo := saldoBase.getD 0
  if unidadeBase = some "G" then ⟨saldo / 1000, "kg"⟩
  else if unidadeBase = some "ML" then ⟨saldo / 1000, "L"⟩
  else ⟨saldo, "un"⟩

/-! ## Report output types -/

/-- One category-by-count ranking entry. -/
structure CategoriaContagem where
  categoria : String
  contagem : ℕ
deriving DecidableEq

/-- One category-by-amount ranking entry. -/
structure CategoriaValor where
  categoria : String
  valor : ℚ
deriving DecidableEq

/-- One per-client aggregate (value of the clientesMap). -/
structure ClienteAgg where
  nome : String
  totalGasto : ℚ
  contagem : ℕ
deriving DecidableEq

/-- One top-sold-product entry; the name is absent when the product id
could not be resolved. -/
structure ProdutoVendido where
  nome : Option String
  quantidade : ℚ
  unidade : String
deriving DecidableEq

/-- One stock-category entry. -/
structure CategoriaQuantidade where
  categoria : String
  quantidade : ℚ
deriving DecidableEq

/-- One count-unit stock entry. -/
structure ProdutoQtd where
  produto : String
  quantidade : ℚ
deriving DecidableEq

/-- One mass/volume stock entry (carries its unit label). -/
structure ProdutoQtdU where
  produto : String
  quantidade : ℚ
  unidade : String
deriving DecidableEq

/-- The expense-category aggregate value of categoriasDespesasMap. -/
structure DespesaAgg where
  count : ℕ
  total : ℚ
deriving DecidableEq

/-- The formatted stock product view used by the estoque section. -/
structure ProdutoEstoque where
  nome : String
  categoria : Option String
  saldoDisplay : ℚ
  unidadeDisplay : String
deriving DecidableEq

/-! ## Fetches (pure queries over the DB snapshot, filtered by owner) -/

/-- prisma.receita.findMany where usuarioId. -/
def receitasDe (uid : String) (db : DB) : List Receita :=
  db.receitas.filter (fun r => r.usuarioId == uid)

/-- prisma.despesa.findMany where usuarioId. -/
def despesasDe (uid : String) (db : DB) : List Despesa :=
  db.despesas.filter (fun d => d.usuarioId == uid)

/-! ## Financial totals -/

/-- totalReceitas: receitas.reduce((acc, r) => acc + Number(r.valor), 0). -/
def totalReceitas (rs : List Receita) : ℚ :=
  rs.foldl (fun acc r => acc + r.valor) 0

/-- totalDespesas: despesas.reduce((acc, d) => acc + Number(d.valor), 0). -/
def totalDespesas (ds : List Despesa) : ℚ :=
  ds.foldl (fun acc d => acc + d.valor) 0

/-- lucroLiquido = totalReceitas - totalDespesas. -/
def lucroLiquido (rs : List Receita) (ds : List Despesa) : ℚ :=
  totalReceitas rs - totalDespesas ds

/-- The attachment-missing test: !anexo || anexo.trim() === "" (JS
falsiness makes both null and the empty string count as missing). -/
def anexoBlank : Option String → Bool
  | none => true
  | some s => s == "" || s.trim == ""

/-- vendasSemAnexo: receitas.filter(r => !r.anexo || r.anexo.trim() === "").length. -/
def vendasSemAnexo (rs : List Receita) : ℕ :=
  (rs.filter (fun r => anexoBlank r.anexo)).length

/-- despesasSemAnexo: the same count over the expense entries. -/
def despesasSemAnexo (ds : List Despesa) : ℕ :=
  (ds.filter (fun d => anexoBlank d.anexo)).length

/-! ## Revenue category ranking -/

/-- The JS truthiness test `if (r.categoria)`: false for null and for the
empty string. -/
def catTruthy : Option String → Bool
  | none => false
  | some s => !(s == "")

/-- The forEach body building categoriasReceitasMap: count the entry
under its category, skipping a falsy (absent or empty) category. -/
def receitaCatStep (m : List (String × ℕ)) (r : Receita) : List (String × ℕ) :=
  match r.categoria with
  | none => m
  | some s => if s == "" then m else mapSet m s (((mapGet m s).getD 0) + 1)

/-- categoriasReceitasMap: count revenue entries per category, skipping
entries whose category is falsy (absent or empty). -/
def categoriasReceitasMap (rs : List Receita) : List (String × ℕ) :=
  rs.foldl receitaCatStep []

/-- categoriasMaisVendidas: map entries sorted by count descending, top 3. -/
def categoriasMaisVendidas (rs : List Receita) : List CategoriaContagem :=
  (topNBy 3 (fun e => (e.2 : ℚ)) (categoriasReceitasMap rs)).map
    (fun e => ⟨e.1, e.2⟩)

/-! ## Expense category rankings -/

/-- The expense bucketing key: d.categoria && d.categoria.trim() !== ""
? d.categoria : "Sem Categoria". -/
def catKeyDespesa : Option String → String
  | none => "Sem Categoria"
  | some s => if s == "" then "Sem Categoria"
      else if s.trim == "" then "Sem Categoria" else s

/-- A blank expense category: absent, empty, or whitespace-only — the
complement of the JS guard categoria && categoria.trim() !== "". -/
def categoriaBlank : Option String → Bool
  | none => true
  | some s => s == "" || s.trim == ""

/-- The forEach body building categoriasDespesasMap. -/
def despesaCatStep (m : List (String × DespesaAgg)) (d : Despesa) :
    List (String × DespesaAgg) :=
  let cat := catKeyDespesa d.categoria
  let atual := (mapGet m cat).getD ⟨0, 0⟩
  mapSet m cat ⟨atual.count + 1, atual.total + d.valor⟩

/-- categoriasDespesasMap: per-category count and summed amount, with
blank categories folded into the "Sem Categoria" bucket. -/
def categoriasDespesasMap (ds : List Despesa) : List (String × DespesaAgg) :=
  ds.foldl despesaCatStep []

/-- categoriasMaisDespesas: top 3 expense categories by count. -/
def categoriasMaisDespesas (ds : List Despesa) : List CategoriaContagem :=
  (topNBy 3 (fun e => (e.2.count : ℚ)) (categoriasDespesasMap ds)).map
    (fun e => ⟨e.1, e.2.count⟩)

/-- valorGastoCategorias: top 3 expense categories by summed amount. -/
def valorGastoCategorias (ds : List Despesa) : List CategoriaValor :=
  (topNBy 3 (fun e => e.2.total) (categoriasDespesasMap ds)).map
    (fun e => ⟨e.1, e.2.total⟩)

/-! ## Client rankings -/

/-- receitasComCliente: receitas.filter(r => r.clienteId) — JS truthiness
excludes both a null reference and the (never-generated) id 0. -/
def receitasComCliente (rs : List Receita) : List Receita :=
  rs.filter (fun r =>
    match r.clienteId with
    | none => false
    | some i => !(i == 0))

/-- prisma.cliente.findMany where id in clientesIds (the deduplicated
client ids referenced by the owner's revenue entries). -/
def clientesData (uid : String) (db : DB) : List Cliente :=
  db.clientes.filter (fun c =>
    (receitasComCliente (receitasDe uid db)).any (fun r => r.clienteId == some c.id))

/-- The forEach body building clienteNomeMap. -/
def nomeStep (m : List (ℕ × String)) (c : Cliente) : List (ℕ × String) :=
  mapSet m c.id c.nome

/-- clienteNomeMap: id → nome over the fetched client rows. -/
def clienteNomeMap (cs : List Cliente) : List (ℕ × String) :=
  cs.foldl nomeStep []

/-- The forEach body building clientesMap: the display name falls back
to "Cliente ID " followed by the id when the client row is missing, and
is fixed at the first encounter of the id. -/
def clienteStep (nm : List (ℕ × String)) (m : List (ℕ × ClienteAgg)) (r : Receita) :
    List (ℕ × ClienteAgg) :=
  match r.clienteId with
  | none => m
  | some id =>
      let nome := (mapGet nm id).getD ("Cliente ID " ++ toString id)
      let atual := (mapGet m id).getD ⟨nome, 0, 0⟩
      mapSet m id ⟨atual.nome, atual.totalGasto + r.valor, atual.contagem + 1⟩

/-- clientesMap: per-client name, summed spend and purchase count. -/
def clientesMap (rs : List Receita) (nm : List (ℕ × String)) :
    List (ℕ × ClienteAgg) :=
  (receitasComCliente rs).foldl (clienteStep nm) []

/-- clientesQueMaisGastaram: top 5 map values by summed spend. -/
def clientesQueMaisGastaram (rs : List Receita) (nm : List (ℕ × String)) :
    List ClienteAgg :=
  topNBy 5 (fun v => v.totalGasto) ((clientesMap rs nm).map (fun e => e.2))

/-- clientesComMaisCompras: top 3 map values by purchase count. -/
def clientesComMaisCompras (rs : List Receita) (nm : List (ℕ × String)) :
    List ClienteAgg :=
  topNBy 3 (fun v => (v.contagem : ℚ)) ((clientesMap rs nm).map (fun e => e.2))

/-- prisma.cliente.count where usuarioId. -/
def totalClientes (uid : String) (db : DB) : ℕ :=
  (db.clientes.filter (fun c => c.usuarioId == uid)).length

/-! ## Sold products -/

/-- prisma.receitaItem.findMany filtered to line items whose revenue
entry belongs to the owner. -/
def receitaItensDe (uid : String) (db : DB) : List ReceitaItem :=
  db.receitaItens.filter (fun it =>
    db.receitas.any (fun r => r.id == it.receitaId && r.usuarioId == uid))

/-- One line item accumulated into the per-product sums. -/
def produtoGroupStep (m : List (ℕ × ℚ)) (it : ReceitaItem) : List (ℕ × ℚ) :=
  mapSet m it.produtoId (((mapGet m it.produtoId).getD 0) + it.qtdBase)

/-- The grouping step of the Prisma groupBy aggregation: line items
grouped by produtoId (first-encounter order), base quantities summed. -/
def groupByProduto (its : List ReceitaItem) : List (ℕ × ℚ) :=
  its.foldl produtoGroupStep []

/-- Modelled from the spec: the ordering step of the Prisma
groupBy(by produtoId, sum qtdBase, orderBy sum desc, take 3) call is
executed by the database, whose code is not part of this repository, and
SQL specifies the descending order and the take-3 truncation but not the
relative order of tied sums. The missing tie order is taken from the
spec's ranking-utility tie-break policy — "when aggregates are equal,
preserve the original input encounter order (stable sort)" — so the
aggregation is the stable descending sort of the grouped sums, truncated
to 3. Only the tie order among equal sums rests on the spec; the
descending order and the bound come from the query itself. -/
def produtosVendidosAgg (uid : String) (db : DB) : List (ℕ × ℚ) :=
  topNBy 3 (fun e => e.2) (groupByProduto (receitaItensDe uid db))

/-- prisma.produto.findMany where id in idsVendidos. -/
def produtosVendidosInfo (uid : String) (db : DB) : List Produto :=
  db.produtos.filter (fun p =>
    (produtosVendidosAgg uid db).any (fun e => e.1 == p.id))

/-- produtosMaisVendidos: each aggregated (produtoId, summed quantity) is
joined to its product row when one exists (find yields undefined
otherwise, so the spread leaves nome and unidadeBase absent) and pushed
through the unit normalizer. -/
def produtosMaisVendidos (uid : String) (db : DB) : List ProdutoVendido :=
  (produtosVendidosAgg uid db).map (fun item =>
    let info := (produtosVendidosInfo uid db).find? (fun p => p.id == item.1)
    let fmt := formatarProdutoParaExibicao (some item.2) (info.map (fun p => p.unidadeBase))
    ⟨info.map (fun p => p.nome), fmt.saldoDisplay, fmt.unidadeDisplay⟩)

/-! ## Revenue entries without line items -/

/-- The receitaId values having at least one line item (the distinct
receitaId query restricted to the owner's revenue ids). -/
def receitasComItensIds (uid : String) (db : DB) : List ℕ :=
  (db.receitaItens.filter (fun it =>
    ((receitasDe uid db).map (fun r => r.id)).contains it.receitaId)).map
    (fun it => it.receitaId)

/-- vendasSemItens: how many of the owner's revenue ids have no line item. -/
def vendasSemItens (uid : String) (db : DB) : ℕ :=
  (((receitasDe uid db).map (fun r => r.id)).filter
    (fun id => !((receitasComItensIds uid db).contains id))).length

/-! ## Stock section -/

/-- prisma.produto.findMany where usuarioId and ativo. -/
def produtosEmEstoque (uid : String) (db : DB) : List Produto :=
  db.produtos.filter (fun p => p.usuarioId == uid && p.ativo)

/-- produtosFormatadosEstoque: each active product through the unit
normalizer, keeping name and category. -/
def produtosFormatadosEstoque (uid : String) (db : DB) : List ProdutoEstoque :=
  (produtosEmEstoque uid db).map (fun p =>
    let fmt := formatarProdutoParaExibicao (some p.saldoBase) (some p.unidadeBase)
    ⟨p.nome, p.categoria, fmt.saldoDisplay, fmt.unidadeDisplay⟩)

/-- The forEach body building categoriasEstoqueMap: add the display
quantity under the category, skipping a falsy (absent or empty) one. -/
def estoqueCatStep (m : List (String × ℚ)) (p : ProdutoEstoque) :
    List (String × ℚ) :=
  match p.categoria with
  | none => m
  | some s => if s == "" then m
      else mapSet m s (((mapGet m s).getD 0) + p.saldoDisplay)

/-- categoriasEstoqueMap: summed display quantity per category, skipping
products whose category is falsy (absent or empty). -/
def categoriasEstoqueMap (ps : List ProdutoEstoque) : List (String × ℚ) :=
  ps.foldl estoqueCatStep []

/-- Number(x.toFixed(2)): round to 2 decimal places. -/
def round2 (q : ℚ) : ℚ := (round (q * 100) : ℤ) / 100

/-- Number(x.toFixed(0)): round to an integer. -/
def round0 (q : ℚ) : ℚ := (round q : ℤ)

/-- categoriasEstoque: top 3 stock categories by summed display quantity,
quantities rounded to 2 decimals for display. -/
def categoriasEstoque (ps : List ProdutoEstoque) : List CategoriaQuantidade :=
  (topNBy 3 (fun e => e.2) (categoriasEstoqueMap ps)).map
    (fun e => ⟨e.1, round2 e.2⟩)

/-- estoquePorUnidade: top 3 count-unit products by display quantity. -/
def estoquePorUnidade (ps : List ProdutoEstoque) : List ProdutoQtd :=
  (topNBy 3 (fun p => p.saldoDisplay)
      (ps.filter (fun p => p.unidadeDisplay == "un"))).map
    (fun p => ⟨p.nome, round0 p.saldoDisplay⟩)

/-- estoquePorKg: top 3 mass products by display quantity. -/
def estoquePorKg (ps : List ProdutoEstoque) : List ProdutoQtdU :=
  (topNBy 3 (fun p => p.saldoDisplay)
      (ps.filter (fun p => p.unidadeDisplay == "kg"))).map
    (fun p => ⟨p.nome, round2 p.saldoDisplay, "Kg"⟩)

/-- estoquePorL: top 3 volume products by display quantity. -/
def estoquePorL (ps : List ProdutoEstoque) : List ProdutoQtdU :=
  (topNBy 3 (fun p => p.saldoDisplay)
      (ps.filter (fun p => p.unidadeDisplay == "L"))).map
    (fun p => ⟨p.nome, round2 p.saldoDisplay, "L"⟩)

/-! ## Assembled report -/

/-- The totals section. -/
structure Totais where
  totalReceitas : ℚ
  totalDespesas : ℚ
  lucroLiquido : ℚ
deriving DecidableEq

/-- The revenue section. -/
structure ReceitasSec where
  categoriasMaisVendidas : List CategoriaContagem
  produtosMaisVendidos : List ProdutoVendido
  totalVendas : ℕ
  valorTotalVendas : ℚ
  vendasSemItens : ℕ
  vendasSemAnexo : ℕ
deriving DecidableEq

/-- The expense section. -/
structure DespesasSec where
  categoriasMaisDespesas : List CategoriaContagem
  valorGastoCategorias : List CategoriaValor
  despesasSemAnexo : ℕ
deriving DecidableEq

/-- The client section. -/
structure ClientesSec where
  clientesQueMaisGastaram : List ClienteAgg
  clientesComMaisCompras : List ClienteAgg
  totalClientesRegistrados : ℕ
deriving DecidableEq

/-- The stock section. -/
structure EstoqueSec where
  categoriasEstoque : List CategoriaQuantidade
  maiorQtdUnidade : List ProdutoQtd
  maiorQtdKg : List ProdutoQtdU
  maiorQtdMl : List ProdutoQtdU
deriving DecidableEq

/-- The full report object returned with status 200. -/
structure Relatorio where
  totais : Totais
  receitas : ReceitasSec
  despesas : DespesasSec
  clientes : ClientesSec
  estoque : EstoqueSec
deriving DecidableEq

/-- The success path of GET /relatorio/:usuarioId: every section computed
from the owner's snapshot and assembled into one object. -/
def relatorio (uid : String) (db : DB) : Relatorio :=
  let rs := receitasDe uid db
  let ds := despesasDe uid db
  let nm := clienteNomeMap (clientesData uid db)
  let fe := produtosFormatadosEstoque uid db
  { totais := ⟨totalReceitas rs, totalDespesas ds, lucroLiquido rs ds⟩
    receitas := ⟨categoriasMaisVendidas rs, produtosMaisVendidos uid db,
      rs.length, totalReceitas rs, vendasSemItens uid db, vendasSemAnexo rs⟩
    despesas := ⟨categoriasMaisDespesas ds, valorGastoCategorias ds,
      despesasSemAnexo ds⟩
    clientes := ⟨clientesQueMaisGastaram rs nm, clientesComMaisCompras rs nm,
      totalClientes uid db⟩
    estoque := ⟨categoriasEstoque fe, estoquePorUnidade fe,
      estoquePorKg fe, estoquePorL fe⟩ }

/-- Which data-retrieval steps fail, one flag per awaited query of the
handler, in source order. -/
structure FetchFlags where
  failReceitas : Bool
  failDespesas : Bool
  failClientesData : Bool
  failTotalClientes : Bool
  failProdutosAgg : Bool
  failProdutosInfo : Bool
  failReceitaItens : Bool
  failProdutosEstoque : Bool
deriving DecidableEq

/-- All fetches succeed. -/
def noFail : FetchFlags := ⟨false, false, false, false, false, false, false, false⟩

/-- The whole handler: the try/catch wrapping every fetch means any
retrieval failure short-circuits to the one generic 500 payload, and
otherwise the complete report is returned. -/
def relatorioHandler (uid : String) (db : DB) (f : FetchFlags) :
    Except String Relatorio :=
  if f.failReceitas then .error "Erro ao gerar relatório"
  else if f.failDespesas then .error "Erro ao gerar relatório"
  else if f.failClientesData then .error "Erro ao gerar relatório"
  else if f.failTotalClientes then .error "Erro ao gerar relatório"
  else if f.failProdutosAgg then .error "Erro ao gerar relatório"
  else if f.failProdutosInfo then .error "Erro ao gerar relatório"
  else if f.failReceitaItens then .error "Erro ao gerar relatório"
  else if f.failProdutosEstoque then .error "Erro ao gerar relatório"
  else .ok (relatorio uid db)

/-! ## Concrete snapshots used to exercise the theorems -/

/-- One revenue entry of 10 with a single line item whose product id 1
matches no product row. -/
def exDB1 : DB := ⟨[⟨1, 10, none, none, none, "u"⟩], [], [], [], [⟨1, 1, 5, 10⟩]⟩

/-- Two expense entries whose categories are the empty string and absent. -/
def exDB2 : DB := ⟨[], [⟨10, some "", none, "u"⟩, ⟨5, none, none, "u"⟩], [], [], []⟩

/-- One revenue entry of 10 referencing client id 7, with no client rows. -/
def exDB3 : DB := ⟨[⟨1, 10, none, none, some 7, "u"⟩], [], [], [], []⟩

/-- A fetch-failure pattern: the first retrieval step fails. -/
def oneFail : FetchFlags := ⟨true, false, false, false, false, false, false, false⟩

/-- One active categorized product of 2500 grams. -/
def exDB4 : DB := ⟨[], [], [], [⟨1, "Farinha", "G", 2500, some "Insumos", true, "u"⟩], []⟩

/-! ## Generic lemmas about the stable descending sort -/

theorem mem_insertDesc {α : Type} (key : α → ℚ) (x : α) (l : List α) (a : α) :
    a ∈ insertDesc key x l ↔ a = x ∨ a ∈ l := by
  induction l with
  | nil => simp [insertDesc]
  | cons y ys ih =>
      simp only [insertDesc]
      split <;> simp [ih] <;> tauto

theorem insertDesc_pairwise {α : Type} (key : α → ℚ) (x : α) (l : List α)
    (h : l.Pairwise fun a b => key b ≤ key a) :
    (insertDesc key x l).Pairwise fun a b => key b ≤ key a := by
  induction l with
  | nil => simp [insertDesc]
  | cons y ys ih =>
      rw [List.pairwise_cons] at h
      simp only [insertDesc]
      split
      · rename_i hlt
        rw [List.pairwise_cons]
        constructor
        · intro a ha
          rw [mem_insertDesc] at ha
          rcases ha with rfl | ha
          · exact le_of_lt hlt
          · exact h.1 a ha
        · exact ih h.2
      · rename_i hge
        rw [List.pairwise_cons]
        constructor
        · intro a ha
          rcases ha with _ | ha
          · exact le_of_not_lt hge
          · exact le_trans (h.1 a (by assumption)) (le_of_not_lt hge)
        · exact List.pairwise_cons.mpr h

theorem sortDescBy_pairwise {α : Type} (key : α → ℚ) (l : List α) :
    (sortDescBy key l).Pairwise fun a b => key b ≤ key a := by
  induction l with
  | nil => simp [sortDescBy]
  | cons x xs ih => exact insertDesc_pairwise key x _ ih

theorem filter_insertDesc {α : Type} (key : α → ℚ) (x : α) (l : List α) (v : ℚ) :
    (insertDesc key x l).filter (fun a => decide (key a = v)) =
      if key x = v then x :: l.filter (fun a => decide (key a = v))
      else l.filter (fun a => decide (key a = v)) := by
  induction l with
  | nil =>
      by_cases hx : key x = v <;> simp [insertDesc, hx]
  | cons y ys ih =>
      simp only [insertDesc]
      split
      · rename_i hlt
        by_cases hx : key x = v
        · have hy : ¬ key y = v := by
            intro hy
            rw [hx] at hlt
            rw [hy] at hlt
            exact lt_irrefl v hlt
          simp only [List.filter, hx, hy, decide_eq_true_eq, if_pos, if_neg,
            decide_eq_false hy, ih]
          simp [hx, hy]
        · simp only [List.filter]
          rw [ih]
          simp only [hx, if_neg hx]
          split <;> simp [hx]
      · by_cases hx : key x = v
        · simp [List.filter, hx]
        · simp [List.filter, hx]

theorem filter_sortDescBy {α : Type} (key : α → ℚ) (l : List α) (v : ℚ) :
    (sortDescBy key l).filter (fun a => decide (key a = v)) =
      l.filter (fun a => decide (key a = v)) := by
  induction l with
  | nil => rfl
  | cons x xs ih =>
      simp only [sortDescBy]
      rw [filter_insertDesc]
      by_cases hx : key x = v
      · simp [hx, ih, List.filter]
      · simp [hx, ih, List.filter]

theorem insertDesc_perm {α : Type} (key : α → ℚ) (x : α) (l : List α) :
    (insertDesc key x l).Perm (x :: l) := by
  induction l with
  | nil => simp [insertDesc]
  | cons y ys ih =>
      simp only [insertDesc]
      split
      · exact (ih.cons y).trans (List.Perm.swap x y ys)
      · exact List.Perm.refl _

theorem sortDescBy_perm {α : Type} (key : α → ℚ) (l : List α) :
    (sortDescBy key l).Perm l := by
  induction l with
  | nil => exact List.Perm.refl _
  | cons x xs ih => exact (insertDesc_perm key x _).trans (ih.cons x)

/-! ## Generic lemmas about topNBy -/

theorem topNBy_length {α : Type} (n : ℕ) (key : α → ℚ) (l : List α) :
    (topNBy n key l).length ≤ n := by
  simp only [topNBy, List.length_take]
  exact min_le_left n (sortDescBy key l).length

theorem topNBy_pairwise {α : Type} (n : ℕ) (key : α → ℚ) (l : List α) :
    (topNBy n key l).Pairwise fun a b => key b ≤ key a :=
  (sortDescBy_pairwise key l).sublist (List.take_sublist n _)

theorem topNBy_stable {α : Type} (n : ℕ) (key : α → ℚ) (l : List α) (v : ℚ) :
    ∃ t, l.filter (fun a => decide (key a = v)) =
      (topNBy n key l).filter (fun a => decide (key a = v)) ++ t := by
  refine ⟨((sortDescBy key l).drop n).filter (fun a => decide (key a = v)), ?_⟩
  rw [← filter_sortDescBy key l v, topNBy, ← List.filter_append,
    List.take_append_drop]

theorem mem_topNBy {α : Type} (n : ℕ) (key : α → ℚ) (l : List α) (a : α)
    (h : a ∈ topNBy n key l) : a ∈ l :=
  (sortDescBy_perm key l).mem_iff.mp (List.mem_of_mem_take h)

/-! ## Transfer of the topNBy properties through the final display map -/

theorem filter_map_view {α β : Type} (f : α → β) (p : β → Bool) (l : List α) :
    (l.map f).filter p = (l.filter (fun a => p (f a))).map f := by
  induction l with
  | nil => rfl
  | cons x xs ih =>
      simp only [List.map, List.filter]
      cases hp : p (f x) <;> simp [hp, ih]

theorem topNBy_map_length {α β : Type} (n : ℕ) (key : α → ℚ) (l : List α)
    (f : α → β) : ((topNBy n key l).map f).length ≤ n := by
  simpa using topNBy_length n key l

theorem topNBy_map_pairwise {α β : Type} (n : ℕ) (key : α → ℚ) (l : List α)
    (f : α → β) (key2 : β → ℚ) (hf : ∀ a, key2 (f a) = key a) :
    ((topNBy n key l).map f).Pairwise fun a b => key2 b ≤ key2 a := by
  refine (topNBy_pairwise n key l).map f ?_
  intro a b h
  rw [hf, hf]
  exact h

theorem topNBy_map_stable {α β : Type} (n : ℕ) (key : α → ℚ) (l : List α)
    (f : α → β) (key2 : β → ℚ) (hf : ∀ a, key2 (f a) = key a) (v : ℚ) :
    ∃ t, (l.map f).filter (fun b => decide (key2 b = v)) =
      ((topNBy n key l).map f).filter (fun b => decide (key2 b = v)) ++ t := by
  obtain ⟨t, ht⟩ := topNBy_stable n key l v
  refine ⟨t.map f, ?_⟩
  have hpred : ∀ (m : List α), (m.map f).filter (fun b => decide (key2 b = v)) =
      (m.filter (fun a => decide (key a = v))).map f := by
    intro m
    rw [filter_map_view]
    congr 1
    apply List.filter_congr
    intro a _
    rw [hf]
  rw [hpred, hpred, ht, List.map_append]

/-- Pairwise descending order survives any display map that is monotone
on the sort key (such as rounding for presentation). -/
theorem topNBy_map_pairwise_mono {α β : Type} (n : ℕ) (key : α → ℚ) (l : List α)
    (f : α → β) (key2 : β → ℚ)
    (hf : ∀ a b, key b ≤ key a → key2 (f b) ≤ key2 (f a)) :
    ((topNBy n key l).map f).Pairwise fun a b => key2 b ≤ key2 a :=
  (topNBy_pairwise n key l).map f hf

/-- Rounding on rationals is monotone. -/
theorem round_rat_mono {x y : ℚ} (h : x ≤ y) : round x ≤ round y := by
  rw [round_eq, round_eq]
  exact Int.floor_mono (by linarith)

/-- round2 (two-decimal display rounding) is monotone. -/
theorem round2_mono {x y : ℚ} (h : x ≤ y) : round2 x ≤ round2 y := by
  rw [round2, round2]
  have h100 : x * 100 ≤ y * 100 := by linarith
  have := round_rat_mono h100
  have hc : ((round (x * 100) : ℤ) : ℚ) ≤ ((round (y * 100) : ℤ) : ℚ) := by
    exact_mod_cast this
  linarith

/-- round0 (integer display rounding) is monotone. -/
theorem round0_mono {x y : ℚ} (h : x ≤ y) : round0 x ≤ round0 y := by
  rw [round0, round0]
  exact_mod_cast round_rat_mono h

/-! ## Generic lemmas about the insertion-ordered map -/

theorem mapGet_mapSet_self {κ β : Type} [DecidableEq κ] (m : List (κ × β))
    (k : κ) (v : β) : mapGet (mapSet m k v) k = some v := by
  induction m with
  | nil => simp [mapGet, mapSet]
  | cons e rest ih =>
      obtain ⟨k2, v2⟩ := e
      by_cases h : k2 = k <;> simp [mapGet, mapSet, h, ih]

theorem mapGet_mapSet_ne {κ β : Type} [DecidableEq κ] (m : List (κ × β))
    (k k2 : κ) (v : β) (h : k2 ≠ k) :
    mapGet (mapSet m k v) k2 = mapGet m k2 := by
  induction m with
  | nil => simp [mapGet, mapSet, Ne.symm h]
  | cons e rest ih =>
      obtain ⟨k3, v3⟩ := e
      simp only [mapSet]
      by_cases h3 : k3 = k
      · rw [if_pos h3]
        subst h3
        simp [mapGet, Ne.symm h]
      · rw [if_neg h3]
        simp only [mapGet]
        by_cases h2 : k3 = k2
        · rw [if_pos h2, if_pos h2]
        · rw [if_neg h2, if_neg h2]
          exact ih

theorem mem_keys_mapSet {κ β : Type} [DecidableEq κ] (m : List (κ × β))
    (k : κ) (v : β) (a : κ) (h : a ∈ (mapSet m k v).map Prod.fst) :
    a = k ∨ a ∈ m.map Prod.fst := by
  induction m with
  | nil => simpa [mapSet] using h
  | cons e rest ih =>
      obtain ⟨k2, v2⟩ := e
      by_cases h2 : k2 = k
      · subst h2
        simp only [mapSet, if_pos rfl, List.map, List.mem_cons] at h
        tauto
      · simp only [mapSet, if_neg h2, List.map, List.mem_cons] at h
        rcases h with h | h
        · exact Or.inr (by simp [h])
        · rcases ih h with h | h
          · exact Or.inl h
          · exact Or.inr (by simp [h])

theorem keys_nodup_mapSet {κ β : Type} [DecidableEq κ] (m : List (κ × β))
    (k : κ) (v : β) (h : (m.map Prod.fst).Nodup) :
    ((mapSet m k v).map Prod.fst).Nodup := by
  induction m with
  | nil => simp [mapSet]
  | cons e rest ih =>
      obtain ⟨k2, v2⟩ := e
      simp only [List.map, List.nodup_cons] at h
      by_cases h2 : k2 = k
      · simp only [mapSet, if_pos h2, List.map, List.nodup_cons]
        exact ⟨h.1, h.2⟩
      · simp only [mapSet, if_neg h2, List.map, List.nodup_cons]
        refine ⟨?_, ih h.2⟩
        intro hmem
        rcases mem_keys_mapSet rest k v k2 hmem with h3 | h3
        · exact h2 h3
        · exact h.1 h3

/-- Keys stay duplicate-free along a fold whose step is either the
identity or a mapSet. -/
theorem keys_nodup_fold {κ β α : Type} [DecidableEq κ]
    (step : List (κ × β) → α → List (κ × β))
    (h : ∀ m a, step m a = m ∨ ∃ k v, step m a = mapSet m k v) :
    ∀ (l : List α) (m : List (κ × β)),
      (m.map Prod.fst).Nodup → ((l.foldl step m).map Prod.fst).Nodup := by
  intro l
  induction l with
  | nil => intro m hm; simpa using hm
  | cons x xs ih =>
      intro m hm
      simp only [List.foldl]
      apply ih
      rcases h m x with he | ⟨k, v, he⟩
      · rw [he]; exact hm
      · rw [he]; exact keys_nodup_mapSet m k v hm

/-- A fold whose step ignores the elements rejected by `p` computes the
same result on the filtered list. -/
theorem foldl_skip {σ α : Type} (step : σ → α → σ) (p : α → Bool)
    (h : ∀ m a, p a = false → step m a = m) :
    ∀ (l : List α) (m : σ), l.foldl step m = (l.filter p).foldl step m := by
  intro l
  induction l with
  | nil => intro m; rfl
  | cons x xs ih =>
      intro m
      simp only [List.foldl, List.filter]
      cases hp : p x with
      | true => simp [List.foldl, ih]
      | false => rw [h m x hp, ih]

/-! ## Remaining helper lemmas -/

theorem foldl_add_sum {α : Type} (f : α → ℚ) :
    ∀ (l : List α) (a : ℚ),
      l.foldl (fun acc x => acc + f x) a = a + (l.map f).sum := by
  intro l
  induction l with
  | nil => intro a; simp
  | cons x xs ih =>
      intro a
      simp only [List.foldl, List.map, List.sum_cons]
      rw [ih, add_assoc]

/-- Every key of the stock-category map comes from a member product with
that (non-empty) category. -/
theorem estoqueMap_keys :
    ∀ (ps : List ProdutoEstoque) (m : List (String × ℚ)) (k : String),
      k ∈ ((ps.foldl estoqueCatStep m).map Prod.fst) →
      k ∈ m.map Prod.fst ∨ ∃ p ∈ ps, p.categoria = some k ∧ k ≠ "" := by
  intro ps
  induction ps with
  | nil => intro m k h; exact Or.inl h
  | cons p rest ih =>
      intro m k h
      simp only [List.foldl] at h
      rcases ih _ k h with h2 | h2
      · cases hc : p.categoria with
        | none =>
            simp only [estoqueCatStep, hc] at h2
            exact Or.inl h2
        | some s =>
            simp only [estoqueCatStep, hc] at h2
            by_cases hs : s == ""
            · rw [if_pos hs] at h2
              exact Or.inl h2
            · rw [if_neg hs] at h2
              rcases mem_keys_mapSet m s _ k h2 with h3 | h3
              · subst h3
                exact Or.inr ⟨p, List.mem_cons_self p rest,
                  hc, by simpa using hs⟩
              · exact Or.inl h3
      · obtain ⟨p2, hp2, hcat⟩ := h2
        exact Or.inr ⟨p2, List.mem_cons_of_mem p hp2, hcat⟩

/-! ## Claim theorems -/

/-- C1: for every owner dataset, the report's net profit (lucroLiquido)
equals the sum of all of the owner's revenue entry amounts minus the sum
of all of the owner's expense entry amounts, exactly (no rounding). -/
theorem spec_c1_lucro (uid : String) (db : DB) :
    (relatorio uid db).totais.lucroLiquido =
      ((receitasDe uid db).map Receita.valor).sum -
      ((despesasDe uid db).map Despesa.valor).sum := by
  have h1 : totalReceitas (receitasDe uid db) =
      ((receitasDe uid db).map Receita.valor).sum := by
    rw [totalReceitas, foldl_add_sum, zero_add]
  have h2 : totalDespesas (despesasDe uid db) =
      ((despesasDe uid db).map Despesa.valor).sum := by
    rw [totalDespesas, foldl_add_sum, zero_add]
  show lucroLiquido (receitasDe uid db) (despesasDe uid db) = _
  rw [lucroLiquido, h1, h2]

/-- C9: in every report, valorTotalVendas of the revenue section is the
very same total as totalReceitas of the totals section. -/
theorem spec_c9_valor_total (uid : String) (db : DB) :
    (relatorio uid db).receitas.valorTotalVendas =
      (relatorio uid db).totais.totalReceitas := rfl

/-- C3: the unit normalizer sends 2500 grams to 2.5 "kg", 2500
milliliters to 2.5 "L", a count quantity of 7 to 7 "un", and any unit
tag other than the gram and milliliter tags — the count tag included,
and an absent tag included — passes the quantity through with label
"un", so an unknown or missing tag behaves exactly like the count tag. -/
theorem spec_c3_normalizer :
    formatarProdutoParaExibicao (some 2500) (some "G") = ⟨5/2, "kg"⟩ ∧
    formatarProdutoParaExibicao (some 2500) (some "ML") = ⟨5/2, "L"⟩ ∧
    formatarProdutoParaExibicao (some 7) none = ⟨7, "un"⟩ ∧
    ∀ (q : Option ℚ) (u : Option String), u ≠ some "G" → u ≠ some "ML" →
      formatarProdutoParaExibicao q u = ⟨q.getD 0, "un"⟩ := by
  refine ⟨by with_unfolding_all decide, by with_unfolding_all decide, rfl, ?_⟩
  intro q u hG hML
  rw [formatarProdutoParaExibicao, if_neg hG, if_neg hML]

/-- Witness for C3: a quantity with an unknown unit tag is passed
through unchanged with label "un". -/
theorem spec_c3_normalizer_witness :
    (some "XYZ" : Option String) ≠ some "G" ∧
    (some "XYZ" : Option String) ≠ some "ML" ∧
    formatarProdutoParaExibicao (some 3) (some "XYZ") =
      ⟨(some (3 : ℚ)).getD 0, "un"⟩ :=
  ⟨by decide, by decide,
    spec_c3_normalizer.2.2.2 (some 3) (some "XYZ") (by decide) (by decide)⟩

/-- C8: the report handler is all-or-nothing: whatever the fetch-failure
pattern, it returns either the one generic failure or the complete
report; any failing retrieval step forces the generic failure, and with
no failure the complete report is returned. -/
theorem spec_c8_all_or_nothing (uid : String) (db : DB) (f : FetchFlags) :
    (relatorioHandler uid db f = Except.error "Erro ao gerar relatório" ∨
      relatorioHandler uid db f = Except.ok (relatorio uid db)) ∧
    ((f.failReceitas || f.failDespesas || f.failClientesData ||
        f.failTotalClientes || f.failProdutosAgg || f.failProdutosInfo ||
        f.failReceitaItens || f.failProdutosEstoque) = true →
      relatorioHandler uid db f = Except.error "Erro ao gerar relatório") ∧
    ((f.failReceitas || f.failDespesas || f.failClientesData ||
        f.failTotalClientes || f.failProdutosAgg || f.failProdutosInfo ||
        f.failReceitaItens || f.failProdutosEstoque) = false →
      relatorioHandler uid db f = Except.ok (relatorio uid db)) := by
  obtain ⟨a, b, c, d, e, g, h, i⟩ := f
  cases a <;> cases b <;> cases c <;> cases d <;> cases e <;> cases g <;>
    cases h <;> cases i <;> simp [relatorioHandler]

/-- Witness for C8: with the first retrieval step failing, the handler
returns the generic failure. -/
theorem spec_c8_all_or_nothing_witness :
    relatorioHandler "u" exDB2 oneFail =
      Except.error "Erro ao gerar relatório" :=
  (spec_c8_all_or_nothing "u" exDB2 oneFail).2.1 (by decide)

/-- C6: revenue entries with a blank (absent or empty) category
contribute to no bucket of the revenue-category ranking: both the bucket
map and the ranking are unchanged when those entries are removed. -/
theorem spec_c6_blank_receita (rs : List Receita) :
    categoriasReceitasMap rs =
      categoriasReceitasMap (rs.filter fun r => catTruthy r.categoria) ∧
    categoriasMaisVendidas rs =
      categoriasMaisVendidas (rs.filter fun r => catTruthy r.categoria) := by
  have hstep : ∀ (m : List (String × ℕ)) (r : Receita),
      catTruthy r.categoria = false → receitaCatStep m r = m := by
    intro m r hr
    cases hc : r.categoria with
    | none => rw [receitaCatStep, hc]
    | some s =>
        rw [hc] at hr
        have hs : s = "" := by simpa [catTruthy] using hr
        simp [receitaCatStep, hc, hs]
  have h := foldl_skip receitaCatStep (fun r => catTruthy r.categoria) hstep rs []
  refine ⟨h, ?_⟩
  rw [categoriasMaisVendidas, categoriasMaisVendidas, categoriasReceitasMap,
    categoriasReceitasMap, h]

/-- C10: in the stock-composition ranking, active products with a blank
(absent or empty) category are excluded entirely: the bucket map is the
same with them removed, and every bucket of the ranking is the non-empty
category of some active product (no synthetic bucket exists). -/
theorem spec_c10_estoque_blank (uid : String) (db : DB) :
    categoriasEstoqueMap (produtosFormatadosEstoque uid db) =
      categoriasEstoqueMap ((produtosFormatadosEstoque uid db).filter
        fun p => catTruthy p.categoria) ∧
    ∀ e, e ∈ (relatorio uid db).estoque.categoriasEstoque →
      ∃ p ∈ produtosEmEstoque uid db, p.categoria = some e.categoria ∧
        e.categoria ≠ "" := by
  constructor
  · have hstep : ∀ (m : List (String × ℚ)) (p : ProdutoEstoque),
        catTruthy p.categoria = false → estoqueCatStep m p = m := by
      intro m p hp
      cases hc : p.categoria with
      | none => rw [estoqueCatStep, hc]
      | some s =>
          rw [hc] at hp
          have hs : s = "" := by simpa [catTruthy] using hp
          simp [estoqueCatStep, hc, hs]
    exact foldl_skip estoqueCatStep (fun p => catTruthy p.categoria) hstep
      (produtosFormatadosEstoque uid db) []
  · intro e he
    have he2 : e ∈ categoriasEstoque (produtosFormatadosEstoque uid db) := he
    rw [categoriasEstoque, List.mem_map] at he2
    obtain ⟨pair, hpair, rfl⟩ := he2
    have hmem := mem_topNBy 3 (fun e => e.2) _ pair hpair
    have hkey : pair.1 ∈ (categoriasEstoqueMap (produtosFormatadosEstoque uid db)).map
        Prod.fst := List.mem_map_of_mem Prod.fst hmem
    rcases estoqueMap_keys (produtosFormatadosEstoque uid db) [] pair.1 hkey with h | h
    · simp at h
    · obtain ⟨pv, hpv, hcat, hne⟩ := h
      rw [produtosFormatadosEstoque, List.mem_map] at hpv
      obtain ⟨p, hp, rfl⟩ := hpv
      exact ⟨p, hp, hcat, hne⟩

/-- Witness for C10: the 2500-gram product of category "Insumos"
produces the only stock bucket, and that bucket traces back to it. -/
theorem spec_c10_estoque_blank_witness :
    (⟨"Insumos", 5/2⟩ : CategoriaQuantidade) ∈
      (relatorio "u" exDB4).estoque.categoriasEstoque ∧
    ∃ p ∈ produtosEmEstoque "u" exDB4,
      p.categoria = some "Insumos" ∧ ("Insumos" : String) ≠ "" :=
  ⟨by with_unfolding_all decide,
    (spec_c10_estoque_blank "u" exDB4).2 ⟨"Insumos", 5/2⟩
      (by with_unfolding_all decide)⟩

/-- C2: every top-N ranking of the report — revenue categories, expense
categories by count and by amount, sold products, clients by spend,
clients by purchase count, stock categories, and the three per-unit
stock rankings — respects its fixed bound (3 everywhere except 5 for
clients by spend), is sorted descending by its aggregate (for the stock
lists the displayed rounded quantity, via monotonicity of the rounding),
and resolves ties by the first-encounter order of the aggregation: for
each aggregate value, the ranking entries carrying it are an initial
segment (in order) of the encounter-ordered input of the sort. Each
stock block also records that the displayed list is the rounding image
of its sort stage. For the sold-product ranking the descending order and
the bound come from the query, while the tie order rests on the
spec-modelled database aggregation (see produtosVendidosAgg). -/
theorem spec_c2_rankings (uid : String) (db : DB) :
    ((relatorio uid db).receitas.categoriasMaisVendidas.length ≤ 3 ∧
     (relatorio uid db).receitas.categoriasMaisVendidas.Pairwise
       (fun a b => (b.contagem : ℚ) ≤ (a.contagem : ℚ)) ∧
     ∀ v : ℚ, ∃ t,
       ((categoriasReceitasMap (receitasDe uid db)).map
         (fun e => (⟨e.1, e.2⟩ : CategoriaContagem))).filter
           (fun e => decide ((e.contagem : ℚ) = v)) =
       ((relatorio uid db).receitas.categoriasMaisVendidas).filter
           (fun e => decide ((e.contagem : ℚ) = v)) ++ t) ∧
    ((relatorio uid db).despesas.categoriasMaisDespesas.length ≤ 3 ∧
     (relatorio uid db).despesas.categoriasMaisDespesas.Pairwise
       (fun a b => (b.contagem : ℚ) ≤ (a.contagem : ℚ)) ∧
     ∀ v : ℚ, ∃ t,
       ((categoriasDespesasMap (despesasDe uid db)).map
         (fun e => (⟨e.1, e.2.count⟩ : CategoriaContagem))).filter
           (fun e => decide ((e.contagem : ℚ) = v)) =
       ((relatorio uid db).despesas.categoriasMaisDespesas).filter
           (fun e => decide ((e.contagem : ℚ) = v)) ++ t) ∧
    ((relatorio uid db).despesas.valorGastoCategorias.length ≤ 3 ∧
     (relatorio uid db).despesas.valorGastoCategorias.Pairwise
       (fun a b => b.valor ≤ a.valor) ∧
     ∀ v : ℚ, ∃ t,
       ((categoriasDespesasMap (despesasDe uid db)).map
         (fun e => (⟨e.1, e.2.total⟩ : CategoriaValor))).filter
           (fun e => decide (e.valor = v)) =
       ((relatorio uid db).despesas.valorGastoCategorias).filter
           (fun e => decide (e.valor = v)) ++ t) ∧
    ((relatorio uid db).receitas.produtosMaisVendidos.length ≤ 3 ∧
     (produtosVendidosAgg uid db).Pairwise (fun a b => b.2 ≤ a.2) ∧
     ∀ v : ℚ, ∃ t,
       (groupByProduto (receitaItensDe uid db)).filter
           (fun e => decide (e.2 = v)) =
       (produtosVendidosAgg uid db).filter (fun e => decide (e.2 = v)) ++ t) ∧
    ((relatorio uid db).clientes.clientesQueMaisGastaram.length ≤ 5 ∧
     (relatorio uid db).clientes.clientesQueMaisGastaram.Pairwise
       (fun a b => b.totalGasto ≤ a.totalGasto) ∧
     ∀ v : ℚ, ∃ t,
       ((clientesMap (receitasDe uid db)
           (clienteNomeMap (clientesData uid db))).map Prod.snd).filter
           (fun e => decide (e.totalGasto = v)) =
       ((relatorio uid db).clientes.clientesQueMaisGastaram).filter
           (fun e => decide (e.totalGasto = v)) ++ t) ∧
    ((relatorio uid db).clientes.clientesComMaisCompras.length ≤ 3 ∧
     (relatorio uid db).clientes.clientesComMaisCompras.Pairwise
       (fun a b => (b.contagem : ℚ) ≤ (a.contagem : ℚ)) ∧
     ∀ v : ℚ, ∃ t,
       ((clientesMap (receitasDe uid db)
           (clienteNomeMap (clientesData uid db))).map Prod.snd).filter
           (fun e => decide ((e.contagem : ℚ) = v)) =
       ((relatorio uid db).clientes.clientesComMaisCompras).filter
           (fun e => decide ((e.contagem : ℚ) = v)) ++ t) ∧
    ((relatorio uid db).estoque.categoriasEstoque =
       (topNBy 3 (fun e => e.2)
           (categoriasEstoqueMap (produtosFormatadosEstoque uid db))).map
         (fun e => (⟨e.1, round2 e.2⟩ : CategoriaQuantidade)) ∧
     (relatorio uid db).estoque.categoriasEstoque.length ≤ 3 ∧
     (relatorio uid db).estoque.categoriasEstoque.Pairwise
       (fun a b => b.quantidade ≤ a.quantidade) ∧
     ∀ v : ℚ, ∃ t,
       (categoriasEstoqueMap (produtosFormatadosEstoque uid db)).filter
           (fun e => decide (e.2 = v)) =
       (topNBy 3 (fun e => e.2)
           (categoriasEstoqueMap (produtosFormatadosEstoque uid db))).filter
           (fun e => decide (e.2 = v)) ++ t) ∧
    ((relatorio uid db).estoque.maiorQtdUnidade =
       (topNBy 3 (fun p => p.saldoDisplay)
           ((produtosFormatadosEstoque uid db).filter
             (fun p => p.unidadeDisplay == "un"))).map
         (fun p => (⟨p.nome, round0 p.saldoDisplay⟩ : ProdutoQtd)) ∧
     (relatorio uid db).estoque.maiorQtdUnidade.length ≤ 3 ∧
     (relatorio uid db).estoque.maiorQtdUnidade.Pairwise
       (fun a b => b.quantidade ≤ a.quantidade) ∧
     ∀ v : ℚ, ∃ t,
       ((produtosFormatadosEstoque uid db).filter
           (fun p => p.unidadeDisplay == "un")).filter
           (fun p => decide (p.saldoDisplay = v)) =
       (topNBy 3 (fun p => p.saldoDisplay)
           ((produtosFormatadosEstoque uid db).filter
             (fun p => p.unidadeDisplay == "un"))).filter
           (fun p => decide (p.saldoDisplay = v)) ++ t) ∧
    ((relatorio uid db).estoque.maiorQtdKg =
       (topNBy 3 (fun p => p.saldoDisplay)
           ((produtosFormatadosEstoque uid db).filter
             (fun p => p.unidadeDisplay == "kg"))).map
         (fun p => (⟨p.nome, round2 p.saldoDisplay, "Kg"⟩ : ProdutoQtdU)) ∧
     (relatorio uid db).estoque.maiorQtdKg.length ≤ 3 ∧
     (relatorio uid db).estoque.maiorQtdKg.Pairwise
       (fun a b => b.quantidade ≤ a.quantidade) ∧
     ∀ v : ℚ, ∃ t,
       ((produtosFormatadosEstoque uid db).filter
           (fun p => p.unidadeDisplay == "kg")).filter
           (fun p => decide (p.saldoDisplay = v)) =
       (topNBy 3 (fun p => p.saldoDisplay)
           ((produtosFormatadosEstoque uid db).filter
             (fun p => p.unidadeDisplay == "kg"))).filter
           (fun p => decide (p.saldoDisplay = v)) ++ t) ∧
    ((relatorio uid db).estoque.maiorQtdMl =
       (topNBy 3 (fun p => p.saldoDisplay)
           ((produtosFormatadosEstoque uid db).filter
             (fun p => p.unidadeDisplay == "L"))).map
         (fun p => (⟨p.nome, round2 p.saldoDisplay, "L"⟩ : ProdutoQtdU)) ∧
     (relatorio uid db).estoque.maiorQtdMl.length ≤ 3 ∧
     (relatorio uid db).estoque.maiorQtdMl.Pairwise
       (fun a b => b.quantidade ≤ a.quantidade) ∧
     ∀ v : ℚ, ∃ t,
       ((produtosFormatadosEstoque uid db).filter
           (fun p => p.unidadeDisplay == "L")).filter
           (fun p => decide (p.saldoDisplay = v)) =
       (topNBy 3 (fun p => p.saldoDisplay)
           ((produtosFormatadosEstoque uid db).filter
             (fun p => p.unidadeDisplay == "L"))).filter
           (fun p => decide (p.saldoDisplay = v)) ++ t) := by
  have hA : (relatorio uid db).receitas.categoriasMaisVendidas =
      (topNBy 3 (fun e => (e.2 : ℚ)) (categoriasReceitasMap (receitasDe uid db))).map
        (fun e => (⟨e.1, e.2⟩ : CategoriaContagem)) := rfl
  have hB : (relatorio uid db).despesas.categoriasMaisDespesas =
      (topNBy 3 (fun e => (e.2.count : ℚ))
          (categoriasDespesasMap (despesasDe uid db))).map
        (fun e => (⟨e.1, e.2.count⟩ : CategoriaContagem)) := rfl
  have hC : (relatorio uid db).despesas.valorGastoCategorias =
      (topNBy 3 (fun e => e.2.total)
          (categoriasDespesasMap (despesasDe uid db))).map
        (fun e => (⟨e.1, e.2.total⟩ : CategoriaValor)) := rfl
  have hD : (relatorio uid db).receitas.produtosMaisVendidos.length =
      (produtosVendidosAgg uid db).length := by
    simp [relatorio, produtosMaisVendidos]
  have hE : (relatorio uid db).clientes.clientesQueMaisGastaram =
      topNBy 5 (fun v => v.totalGasto)
        ((clientesMap (receitasDe uid db)
            (clienteNomeMap (clientesData uid db))).map Prod.snd) := rfl
  have hF : (relatorio uid db).clientes.clientesComMaisCompras =
      topNBy 3 (fun v => (v.contagem : ℚ))
        ((clientesMap (receitasDe uid db)
            (clienteNomeMap (clientesData uid db))).map Prod.snd) := rfl
  have hG : (relatorio uid db).estoque.categoriasEstoque =
      (topNBy 3 (fun e => e.2)
          (categoriasEstoqueMap (produtosFormatadosEstoque uid db))).map
        (fun e => (⟨e.1, round2 e.2⟩ : CategoriaQuantidade)) := rfl
  have hH : (relatorio uid db).estoque.maiorQtdUnidade =
      (topNBy 3 (fun p => p.saldoDisplay)
          ((produtosFormatadosEstoque uid db).filter
            (fun p => p.unidadeDisplay == "un"))).map
        (fun p => (⟨p.nome, round0 p.saldoDisplay⟩ : ProdutoQtd)) := rfl
  have hI : (relatorio uid db).estoque.maiorQtdKg =
      (topNBy 3 (fun p => p.saldoDisplay)
          ((produtosFormatadosEstoque uid db).filter
            (fun p => p.unidadeDisplay == "kg"))).map
        (fun p => (⟨p.nome, round2 p.saldoDisplay, "Kg"⟩ : ProdutoQtdU)) := rfl
  have hJ : (relatorio uid db).estoque.maiorQtdMl =
      (topNBy 3 (fun p => p.saldoDisplay)
          ((produtosFormatadosEstoque uid db).filter
            (fun p => p.unidadeDisplay == "L"))).map
        (fun p => (⟨p.nome, round2 p.saldoDisplay, "L"⟩ : ProdutoQtdU)) := rfl
  refine ⟨⟨?_, ?_, ?_⟩, ⟨?_, ?_, ?_⟩, ⟨?_, ?_, ?_⟩, ⟨?_, ?_, ?_⟩,
    ⟨?_, ?_, ?_⟩, ⟨?_, ?_, ?_⟩, ⟨hG, ?_, ?_, ?_⟩, ⟨hH, ?_, ?_, ?_⟩,
    ⟨hI, ?_, ?_, ?_⟩, ⟨hJ, ?_, ?_, ?_⟩⟩
  · rw [hA]; exact topNBy_map_length 3 _ _ _
  · rw [hA]
    exact topNBy_map_pairwise 3 _ _ _ (fun e : CategoriaContagem => (e.contagem : ℚ)) (fun a => rfl)
  · intro v
    rw [hA]
    exact topNBy_map_stable 3 _ _ _ (fun e : CategoriaContagem => (e.contagem : ℚ)) (fun a => rfl) v
  · rw [hB]; exact topNBy_map_length 3 _ _ _
  · rw [hB]
    exact topNBy_map_pairwise 3 _ _ _ (fun e : CategoriaContagem => (e.contagem : ℚ)) (fun a => rfl)
  · intro v
    rw [hB]
    exact topNBy_map_stable 3 _ _ _ (fun e : CategoriaContagem => (e.contagem : ℚ)) (fun a => rfl) v
  · rw [hC]; exact topNBy_map_length 3 _ _ _
  · rw [hC]
    exact topNBy_map_pairwise 3 _ _ _ (fun e : CategoriaValor => e.valor) (fun a => rfl)
  · intro v
    rw [hC]
    exact topNBy_map_stable 3 _ _ _ (fun e : CategoriaValor => e.valor) (fun a => rfl) v
  · rw [hD, produtosVendidosAgg]; exact topNBy_length 3 _ _
  · rw [produtosVendidosAgg]; exact topNBy_pairwise 3 _ _
  · intro v
    rw [produtosVendidosAgg]
    exact topNBy_stable 3 _ _ v
  · rw [hE]; exact topNBy_length 5 _ _
  · rw [hE]; exact topNBy_pairwise 5 _ _
  · intro v
    rw [hE]
    exact topNBy_stable 5 _ _ v
  · rw [hF]; exact topNBy_length 3 _ _
  · rw [hF]; exact topNBy_pairwise 3 _ _
  · intro v
    rw [hF]
    exact topNBy_stable 3 _ _ v
  · rw [hG]; exact topNBy_map_length 3 _ _ _
  · rw [hG]
    exact topNBy_map_pairwise_mono 3 _ _ _
      (fun e : CategoriaQuantidade => e.quantidade) (fun a b h => round2_mono h)
  · intro v
    exact topNBy_stable 3 _ _ v
  · rw [hH]; exact topNBy_map_length 3 _ _ _
  · rw [hH]
    exact topNBy_map_pairwise_mono 3 _ _ _
      (fun e : ProdutoQtd => e.quantidade) (fun a b h => round0_mono h)
  · intro v
    exact topNBy_stable 3 _ _ v
  · rw [hI]; exact topNBy_map_length 3 _ _ _
  · rw [hI]
    exact topNBy_map_pairwise_mono 3 _ _ _
      (fun e : ProdutoQtdU => e.quantidade) (fun a b h => round2_mono h)
  · intro v
    exact topNBy_stable 3 _ _ v
  · rw [hJ]; exact topNBy_map_length 3 _ _ _
  · rw [hJ]
    exact topNBy_map_pairwise_mono 3 _ _ _
      (fun e : ProdutoQtdU => e.quantidade) (fun a b h => round2_mono h)
  · intro v
    exact topNBy_stable 3 _ _ v

/-! ## Lemmas for the expense "Sem Categoria" bucket -/

/-- The "Sem Categoria" count in the expense bucket map grows by exactly
the number of entries whose key is "Sem Categoria". -/
theorem despesasMap_count (k : String) :
    ∀ (ds : List Despesa) (m : List (String × DespesaAgg)),
      ((mapGet (ds.foldl despesaCatStep m) k).map DespesaAgg.count).getD 0 =
      ((mapGet m k).map DespesaAgg.count).getD 0 +
        (ds.filter fun d => catKeyDespesa d.categoria == k).length := by
  intro ds
  induction ds with
  | nil => intro m; simp
  | cons d rest ih =>
      intro m
      rw [List.foldl_cons, ih]
      by_cases hk : catKeyDespesa d.categoria = k
      · have hb : (catKeyDespesa d.categoria == k) = true := by simp [hk]
        simp only [List.filter, hb, List.length_cons]
        have hstep : ((mapGet (despesaCatStep m d) k).map DespesaAgg.count).getD 0 =
            ((mapGet m k).map DespesaAgg.count).getD 0 + 1 := by
          simp only [despesaCatStep, hk]
          rw [mapGet_mapSet_self]
          cases hm : mapGet m k with
          | none => simp [hm]
          | some w => simp [hm]
        rw [hstep]
        omega
      · have hb : (catKeyDespesa d.categoria == k) = false := by simp [hk]
        simp only [List.filter, hb]
        have hstep : mapGet (despesaCatStep m d) k = mapGet m k := by
          simp only [despesaCatStep]
          exact mapGet_mapSet_ne _ _ _ _ (fun he => hk he.symm)
        rw [hstep]

/-- The expense bucket map never duplicates a category key. -/
theorem despesasMap_keys_nodup (ds : List Despesa) :
    ((categoriasDespesasMap ds).map Prod.fst).Nodup := by
  apply keys_nodup_fold despesaCatStep ?_ ds [] (by simp)
  intro m d
  exact Or.inr ⟨catKeyDespesa d.categoria,
    ⟨((mapGet m (catKeyDespesa d.categoria)).getD ⟨0, 0⟩).count + 1,
      ((mapGet m (catKeyDespesa d.categoria)).getD ⟨0, 0⟩).total + d.valor⟩, rfl⟩

/-- For a category that is not literally "Sem Categoria", landing in the
"Sem Categoria" bucket is exactly being blank. -/
theorem catKey_eq_sem (c : Option String) (h : c ≠ some "Sem Categoria") :
    (catKeyDespesa c == "Sem Categoria") = categoriaBlank c := by
  cases c with
  | none => simp [catKeyDespesa, categoriaBlank]
  | some s =>
      by_cases h1 : s == ""
      · simp only [catKeyDespesa, if_pos h1, categoriaBlank, h1]
        simp
      · by_cases h2 : s.trim == ""
        · simp only [catKeyDespesa, if_neg h1, if_pos h2, categoriaBlank, h1, h2]
          simp
        · have hs : s ≠ "Sem Categoria" := fun he => h (by rw [he])
          simp only [catKeyDespesa, if_neg h1, if_neg h2, categoriaBlank]
          simp [hs, h1, h2]

/-- C5 (amended): provided no expense entry carries the literal category
"Sem Categoria", all entries whose category is blank (absent, empty or
whitespace-only) are folded into one single bucket keyed "Sem Categoria"
— the bucket map has duplicate-free keys — and that bucket's count
equals the number of such entries. -/
theorem spec_c5_amended (ds : List Despesa)
    (h : ∀ d ∈ ds, d.categoria ≠ some "Sem Categoria") :
    ((categoriasDespesasMap ds).map Prod.fst).Nodup ∧
    ((mapGet (categoriasDespesasMap ds) "Sem Categoria").map
        DespesaAgg.count).getD 0 =
      (ds.filter fun d => categoriaBlank d.categoria).length := by
  refine ⟨despesasMap_keys_nodup ds, ?_⟩
  have hfold : categoriasDespesasMap ds = ds.foldl despesaCatStep [] := rfl
  rw [hfold, despesasMap_count "Sem Categoria" ds []]
  have hfc : (ds.filter fun d => catKeyDespesa d.categoria == "Sem Categoria") =
      ds.filter fun d => categoriaBlank d.categoria :=
    List.filter_congr (fun d hd => catKey_eq_sem d.categoria (h d hd))
  rw [hfc]
  simp [mapGet]

/-- Counterexample to C5 as stated: with one empty-category and one
absent-category expense entry, the single folded bucket is labeled
"Sem Categoria" (not "Uncategorized") and counts both entries (not just
the empty-string one). -/
theorem spec_c5_counterexample :
    (relatorio "u" exDB2).despesas.categoriasMaisDespesas =
      [⟨"Sem Categoria", 2⟩] ∧
    ∀ e, e ∈ (relatorio "u" exDB2).despesas.categoriasMaisDespesas →
      e.categoria ≠ "Uncategorized" := by
  with_unfolding_all decide

/-- Witness for the amended C5 on the two-entry snapshot. -/
theorem spec_c5_amended_witness :
    (∀ d ∈ exDB2.despesas, d.categoria ≠ some "Sem Categoria") ∧
    (((categoriasDespesasMap exDB2.despesas).map Prod.fst).Nodup ∧
     ((mapGet (categoriasDespesasMap exDB2.despesas) "Sem Categoria").map
         DespesaAgg.count).getD 0 =
       (exDB2.despesas.filter fun d => categoriaBlank d.categoria).length) :=
  ⟨by decide, spec_c5_amended exDB2.despesas (by decide)⟩

/-! ## Lemmas for the synthesized client name -/

/-- An id matching no fetched client row is absent from clienteNomeMap. -/
theorem nomeMap_get_none (id : ℕ) :
    ∀ (cs : List Cliente) (m : List (ℕ × String)),
      (∀ c ∈ cs, c.id ≠ id) → mapGet m id = none →
      mapGet (cs.foldl nomeStep m) id = none := by
  intro cs
  induction cs with
  | nil => intro m _ hm; exact hm
  | cons c rest ih =>
      intro m hc hm
      rw [List.foldl_cons]
      apply ih
      · intro c2 h2
        exact hc c2 (List.mem_cons_of_mem c h2)
      · rw [nomeStep,
          mapGet_mapSet_ne m c.id id c.nome
            (Ne.symm (hc c (List.mem_cons_self c rest)))]
        exact hm

/-- Along the clientesMap fold, the stored display name for an id never
changes from the resolved-or-synthesized name. -/
theorem clientesMap_nome_inv (nm : List (ℕ × String)) (id : ℕ) :
    ∀ (rs : List Receita) (m : List (ℕ × ClienteAgg)),
      (∀ w, mapGet m id = some w →
        w.nome = (mapGet nm id).getD ("Cliente ID " ++ toString id)) →
      ∀ w, mapGet (rs.foldl (clienteStep nm) m) id = some w →
        w.nome = (mapGet nm id).getD ("Cliente ID " ++ toString id) := by
  intro rs
  induction rs with
  | nil => intro m hm; exact hm
  | cons r rest ih =>
      intro m hm
      rw [List.foldl_cons]
      apply ih
      intro w hw
      cases hcid : r.clienteId with
      | none =>
          simp only [clienteStep, hcid] at hw
          exact hm w hw
      | some j =>
          by_cases hj : j = id
          · subst hj
            simp only [clienteStep, hcid] at hw
            rw [mapGet_mapSet_self] at hw
            injection hw with hw2
            subst hw2
            cases hm2 : mapGet m j with
            | none => simp [hm2]
            | some w2 =>
                have := hm w2 hm2
                simp [hm2, this]
          · simp only [clienteStep, hcid] at hw
            rw [mapGet_mapSet_ne _ _ _ _ (fun he => hj he.symm)] at hw
            exact hm w hw

/-- An id referenced by a processed revenue entry is present in the
clientesMap fold result. -/
theorem clientesMap_get_isSome (nm : List (ℕ × String)) (id : ℕ) :
    ∀ (rs : List Receita) (m : List (ℕ × ClienteAgg)),
      ((∃ r ∈ rs, r.clienteId = some id) ∨ (mapGet m id).isSome = true) →
      (mapGet (rs.foldl (clienteStep nm) m) id).isSome = true := by
  intro rs
  induction rs with
  | nil =>
      intro m h
      rcases h with ⟨r, hr, _⟩ | h
      · exact absurd hr (List.not_mem_nil r)
      · exact h
  | cons r rest ih =>
      intro m h
      rw [List.foldl_cons]
      apply ih
      rcases h with ⟨r2, hr2, hcid⟩ | h
      · rcases List.mem_cons.mp hr2 with rfl | hr3
        · right
          simp only [clienteStep, hcid]
          rw [mapGet_mapSet_self]
          rfl
        · exact Or.inl ⟨r2, hr3, hcid⟩
      · right
        cases hcid : r.clienteId with
        | none =>
            simp only [clienteStep, hcid]
            exact h
        | some j =>
            by_cases hj : j = id
            · subst hj
              simp only [clienteStep, hcid]
              rw [mapGet_mapSet_self]
              rfl
            · simp only [clienteStep, hcid]
              rw [mapGet_mapSet_ne _ _ _ _ (fun he => hj he.symm)]
              exact h

/-- C7 (amended): a revenue entry referencing a client id that matches
no client row makes the per-client aggregation store the synthesized
display name "Cliente ID " followed by the id — no failure — and both
client rankings of the report are the top-5/top-3 truncations of that
aggregation's values. -/
theorem spec_c7_amended (uid : String) (db : DB) (id : ℕ)
    (h1 : ∃ r ∈ receitasComCliente (receitasDe uid db), r.clienteId = some id)
    (h2 : ∀ c ∈ db.clientes, c.id ≠ id) :
    (∃ w, mapGet (clientesMap (receitasDe uid db)
        (clienteNomeMap (clientesData uid db))) id = some w ∧
      w.nome = "Cliente ID " ++ toString id) ∧
    (relatorio uid db).clientes.clientesQueMaisGastaram =
      topNBy 5 (fun v => v.totalGasto)
        ((clientesMap (receitasDe uid db)
            (clienteNomeMap (clientesData uid db))).map Prod.snd) ∧
    (relatorio uid db).clientes.clientesComMaisCompras =
      topNBy 3 (fun v => (v.contagem : ℚ))
        ((clientesMap (receitasDe uid db)
            (clienteNomeMap (clientesData uid db))).map Prod.snd) := by
  refine ⟨?_, rfl, rfl⟩
  have hnm : mapGet (clienteNomeMap (clientesData uid db)) id = none := by
    refine nomeMap_get_none id (clientesData uid db) [] ?_ rfl
    intro c hc
    exact h2 c (List.mem_of_mem_filter hc)
  have hsome := clientesMap_get_isSome (clienteNomeMap (clientesData uid db)) id
    (receitasComCliente (receitasDe uid db)) [] (Or.inl h1)
  obtain ⟨w, hw⟩ := Option.isSome_iff_exists.mp hsome
  refine ⟨w, hw, ?_⟩
  have hn := clientesMap_nome_inv (clienteNomeMap (clientesData uid db)) id
    (receitasComCliente (receitasDe uid db)) []
    (by intro w2 hw2; simp [mapGet] at hw2) w hw
  rw [hn, hnm]
  rfl

/-- Counterexample to C7 as stated: the synthesized name for an
unresolved client id 7 is "Cliente ID 7", not "Client ID 7". -/
theorem spec_c7_counterexample :
    (relatorio "u" exDB3).clientes.clientesQueMaisGastaram =
      [⟨"Cliente ID 7", 10, 1⟩] ∧
    ("Cliente ID 7" : String) ≠ "Client ID 7" := by
  with_unfolding_all decide

/-- Witness for the amended C7 on the one-entry snapshot. -/
theorem spec_c7_amended_witness :
    (∃ r ∈ receitasComCliente (receitasDe "u" exDB3), r.clienteId = some 7) ∧
    (∃ w, mapGet (clientesMap (receitasDe "u" exDB3)
        (clienteNomeMap (clientesData "u" exDB3))) 7 = some w ∧
      w.nome = "Cliente ID " ++ toString 7) :=
  ⟨by with_unfolding_all decide,
    (spec_c7_amended "u" exDB3 7 (by with_unfolding_all decide) (by decide)).1⟩

/-- C4 (amended): for every input — an unknown-product line item
included — the report is produced without failure, and being unresolved
never excludes a product identity from produtosMaisVendidos: whenever an
aggregated (produtoId, summed quantity) pair survives the top-3
truncation and its id matches no product row, it still appears in the
list, as an entry with an absent name, its summed base quantity, and
the count-unit label "un" (an aggregated id can only be dropped by the
take-3 truncation, never for being unresolved). -/
theorem spec_c4_amended (uid : String) (db : DB) (pid : ℕ) (q : ℚ) :
    relatorioHandler uid db noFail = Except.ok (relatorio uid db) ∧
    ((pid, q) ∈ produtosVendidosAgg uid db →
      (∀ p ∈ db.produtos, p.id ≠ pid) →
      (⟨none, q, "un"⟩ : ProdutoVendido) ∈
        (relatorio uid db).receitas.produtosMaisVendidos) := by
  refine ⟨rfl, ?_⟩
  intro h1 h2
  have hfind : (produtosVendidosInfo uid db).find?
      (fun p => p.id == pid) = none := by
    rw [List.find?_eq_none]
    intro p hp
    simp [h2 p (List.mem_of_mem_filter hp)]
  show (⟨none, q, "un"⟩ : ProdutoVendido) ∈ produtosMaisVendidos uid db
  rw [produtosMaisVendidos, List.mem_map]
  refine ⟨(pid, q), h1, ?_⟩
  simp only [hfind, formatarProdutoParaExibicao]
  simp

/-- Counterexample to C4 as stated: with a single line item referencing
the unknown product id 1, the top-sold list is not empty — the
unresolved identity occupies a slot, with no name. -/
theorem spec_c4_counterexample :
    (relatorio "u" exDB1).receitas.produtosMaisVendidos = [⟨none, 5, "un"⟩] ∧
    (relatorio "u" exDB1).receitas.produtosMaisVendidos ≠ [] := by
  with_unfolding_all decide

/-- Witness for the amended C4 on the unknown-product snapshot. -/
theorem spec_c4_amended_witness :
    ((1, (5 : ℚ)) ∈ produtosVendidosAgg "u" exDB1) ∧
    relatorioHandler "u" exDB1 noFail = Except.ok (relatorio "u" exDB1) ∧
    (⟨none, 5, "un"⟩ : ProdutoVendido) ∈
      (relatorio "u" exDB1).receitas.produtosMaisVendidos :=
  ⟨by with_unfolding_all decide,
    (spec_c4_amended "u" exDB1 1 5).1,
    (spec_c4_amended "u" exDB1 1 5).2 (by with_unfolding_all decide) (by decide)⟩

end MinhaRenda
